import Mathlib

/-!
Verification of the MoaT one-wire device dispatch core
(src/moat_internal.h) against its design description.

The header under src/ contains the interface declarations: the buffer
constant MAXBUF, the operation typedefs, the DEFS/ADEFS/TC_DEFINE
macros, the registry struct moat_call_t and the two registry tables.
The per-class implementations and the table initialisers live outside
src/, so their behaviour is modelled from the design description; each
such definition carries a doc comment starting with the words Modelled
from the spec.
-/

namespace Moat

/-- C type uint8_t from the header: an 8-bit unsigned integer. -/
abbrev uint8 := Fin 256

/-- C type uint16_t from the header: a 16-bit unsigned integer. -/
abbrev uint16 := Fin 65536

/-- A byte buffer passed by pointer into the read and write operations. -/
abbrev Buf := List uint8

/-- MAXBUF, src/moat_internal.h line 21: capacity of the shared message
buffer in bytes. -/
def MAXBUF : Nat := 32

/-- Typedef init_fn, header line 28. The interface typedefs are embedded
as pure type skeletons: a C void return becomes Unit, a byte pointer
becomes Buf; effects are modelled separately by the semantic layer. -/
abbrev init_fn := Unit → Unit

/-- Typedef poll_fn, header line 29. -/
abbrev poll_fn := Unit → Unit

/-- Typedef read_len_fn, header line 30: channel in, byte count out. -/
abbrev read_len_fn := uint8 → uint8

/-- Typedef read_fn, header line 31: channel and buffer in, void out. -/
abbrev read_fn := uint8 → Buf → Unit

/-- Typedef read_done_fn, header line 32. -/
abbrev read_done_fn := uint8 → Unit

/-- Typedef alert_check_fn, header line 33: returns a C char used as a
boolean. -/
abbrev alert_check_fn := Unit → Fin 256

/-- Typedef alert_fill_fn, header line 34. -/
abbrev alert_fill_fn := Buf → Unit

/-- Typedef write_check_fn, header line 35: channel, buffer and length
in, and a void return. -/
abbrev write_check_fn := uint8 → Buf → uint8 → Unit

/-- Typedef write_fn, header line 36. -/
abbrev write_fn := uint8 → Buf → uint8 → Unit

/-- The DEFS macro, header lines 38 to 45: the mandatory symbols declared
for a device class named s. -/
def DEFS (s : String) : List String :=
  ["init_" ++ s, "poll_" ++ s,
   "read_" ++ s ++ "_len", "read_" ++ s, "read_" ++ s ++ "_done",
   "write_" ++ s ++ "_check", "write_" ++ s]

/-- The ADEFS macro, header lines 47 to 53: the alert symbols declared for
a device class named s when the CONDITIONAL_SEARCH build flag is set, and
nothing otherwise. -/
def ADEFS (condSearch : Bool) (s : String) : List String :=
  if condSearch then ["alert_" ++ s ++ "_check", "alert_" ++ s ++ "_fill"]
  else []

/-- The TC_DEFINE macro, header lines 72 to 74: full declared symbol set
of a device class. -/
def TC_DEFINE (condSearch : Bool) (s : String) : List String :=
  ADEFS condSearch s ++ DEFS s

/-- Modelled from the spec: the per-class mutable device state (the
implementations behind the typedefs are not under src/). The spec
mentions a new-data flag advanced by read_done, a current value produced
by read, and storage committed by write. -/
structure DevState where
  newData : Bool
  value : Buf
  stored : Buf
deriving DecidableEq

/-- Modelled from the spec: the semantic operation bundle of one device
class. C functions with side effects become state transformers; read
produces the bytes it writes into the caller buffer; the write_check
verdict is the accept/reject decision the check computes. -/
structure DevClass where
  name : String
  max_size : uint8
  init : DevState → DevState
  poll : DevState → DevState
  read_len : uint8 → DevState → uint8
  read : uint8 → DevState → Buf
  read_done : uint8 → DevState → DevState
  write_check : uint8 → Buf → uint8 → Bool
  write : uint8 → Buf → uint8 → DevState → DevState
  alert_check : DevState → Bool
  alert_fill : DevState → Buf

/-- Pad or truncate a buffer to exactly n bytes. -/
def padTo (n : Nat) (b : Buf) : Buf :=
  (b ++ List.replicate n 0).take n

/-- Modelled from the spec: the known four-byte fixture of scenario A. -/
def fixtureA : Buf := [1, 2, 3, 4]

/-- Modelled from the spec: the scenario-A device class (the concrete
classes listed by the missing _def.h are not under src/): maximum message
size 4, read_len returns 4, read fills four bytes from the fixture-backed
value, read_done clears the new-data flag, write_check accepts a length
of at most 4 matching the buffer. -/
def sensorClass : DevClass where
  name := "sensor"
  max_size := ⟨4, by omega⟩
  init := fun _ => { newData := false, value := fixtureA, stored := [] }
  poll := fun s => { s with newData := true }
  read_len := fun _ _ => ⟨4, by omega⟩
  read := fun _ s => padTo 4 s.value
  read_done := fun _ s => { s with newData := false }
  write_check := fun _ buf len => decide (len.val ≤ 4 ∧ buf.length = len.val)
  write := fun _ buf len s => { s with stored := buf.take len.val }
  alert_check := fun s => s.newData
  alert_fill := fun s => padTo 4 s.value

/-- Modelled from the spec: a second compiled-in device class with
maximum message size 2, so that the registry quantifications range over
classes with distinct bounds. -/
def switchClass : DevClass where
  name := "switch"
  max_size := ⟨2, by omega⟩
  init := fun _ => { newData := false, value := [0, 0], stored := [] }
  poll := fun s => { s with newData := true }
  read_len := fun _ _ => ⟨2, by omega⟩
  read := fun _ s => padTo 2 s.value
  read_done := fun _ s => { s with newData := false }
  write_check := fun _ buf len => decide (len.val ≤ 2 ∧ buf.length = len.val)
  write := fun _ buf len s => { s with stored := buf.take len.val }
  alert_check := fun s => s.newData
  alert_fill := fun s => padTo 2 s.value

/-- Modelled from the spec: TC_MAX is the number of compiled-in device
classes (declared by the missing moat.h). -/
abbrev TC_MAX : Nat := 2

/-- Modelled from the spec: the device class compiled in at slot i. -/
def classOf (i : Fin TC_MAX) : DevClass :=
  if i.val = 0 then sensorClass else switchClass

/-- Modelled from the spec: the names of the compiled-in device classes,
as listed by the missing _def.h for the TC_DEFINE expansion. -/
def classNames : List String := ["sensor", "switch"]

/-- The parallel size table moat_sizes, header line 70; its initialiser is
not under src/ and is modelled from the spec as each class maximum. -/
def moat_sizes (i : Fin TC_MAX) : uint8 :=
  (classOf i).max_size

/-- The registry entry struct moat_call_t, header lines 55 to 67. C
function pointers, which may be null, become Option; the two alert
members exist under the CONDITIONAL_SEARCH flag only, embedded as fields
readable only with a proof that the flag is set. -/
structure moat_call_t (condSearch : Bool) where
  init : Option (DevState → DevState)
  poll : Option (DevState → DevState)
  read_len : Option (uint8 → DevState → uint8)
  read : Option (uint8 → DevState → Buf)
  read_done : Option (uint8 → DevState → DevState)
  write_check : Option (uint8 → Buf → uint8 → Bool)
  write : Option (uint8 → Buf → uint8 → DevState → DevState)
  alert_check : condSearch = true → Option (DevState → Bool)
  alert_fill : condSearch = true → Option (DevState → Buf)

/-- Modelled from the spec: the registry entry built for one device class
by the static composition, every mandatory pointer filled in. -/
def entryOf (condSearch : Bool) (c : DevClass) : moat_call_t condSearch where
  init := some c.init
  poll := some c.poll
  read_len := some c.read_len
  read := some c.read
  read_done := some c.read_done
  write_check := some c.write_check
  write := some c.write
  alert_check := fun _ => some c.alert_check
  alert_fill := fun _ => some c.alert_fill

/-- The registry table moat_calls, header line 68; its initialiser is not
under src/ and is modelled from the spec as the static composition over
the compiled-in classes. -/
def moat_calls (condSearch : Bool) (i : Fin TC_MAX) : moat_call_t condSearch :=
  entryOf condSearch (classOf i)

/-- Registry lookup: the operation bundle and the size entry for a class
id, total on Fin TC_MAX. -/
def moat_lookup (condSearch : Bool) (i : Fin TC_MAX) :
    moat_call_t condSearch × uint8 :=
  (moat_calls condSearch i, moat_sizes i)

/-- The caller-visible result of a write_check call under its declared C
signature: header line 35 declares the return type void, so the computed
verdict is discarded by the return. -/
def write_check_c (i : Fin TC_MAX) : write_check_fn :=
  fun ch buf len =>
    let _verdict := (classOf i).write_check ch buf len
    ()

/-- Bitwise complement of a 16-bit value, as a 16-bit value. -/
def complement16 (c : uint16) : uint16 :=
  ⟨c.val ^^^ 65535, @Nat.bitwise_lt bne c.val 65535 16 c.isLt (by norm_num)⟩

/-- Modelled from the spec: end_transmission, declared header line 26 with
the comment on lines 23 to 25 (transmit the CRC, check that its complement
is received correctly; if it is not, this will not return to the caller).
The implementation is not under src/. Given the response received from
the peer, some () is the normal return and none the aborted, non-returning
outcome. -/
def end_transmission (crc : uint16) (resp : uint16) : Option Unit :=
  if resp = complement16 crc then some () else none

/-- Modelled from the spec: the states of one bus exchange. -/
inductive XState where
  | idle
  | operating
  | finalizing (crc : uint16)
  | committed
  | aborted
deriving DecidableEq

/-- Modelled from the spec: the completion step of the exchange state
machine, driven by the response received from the peer; the aborted state
is terminal. -/
def endtx_step (resp : uint16) : XState → XState
  | XState.finalizing crc =>
      if resp = complement16 crc then XState.committed else XState.aborted
  | XState.aborted => XState.aborted
  | XState.idle => XState.idle
  | XState.operating => XState.operating
  | XState.committed => XState.committed

/-- The CRC token held by an exchange state, if any. -/
def holds_crc : XState → Option uint16
  | XState.finalizing crc => some crc
  | XState.idle => none
  | XState.operating => none
  | XState.committed => none
  | XState.aborted => none

/-- Modelled from the spec: the state trace of one whole exchange that
finalizes with crc and receives resp. -/
def exchange_trace (crc resp : uint16) : List XState :=
  [XState.idle, XState.operating, XState.finalizing crc,
   endtx_step resp (XState.finalizing crc)]

/-- Modelled from the spec: the operations the external dispatcher can
drive through this core. -/
inductive Op where
  | doInit (i : Fin TC_MAX)
  | doPoll (i : Fin TC_MAX)
  | doRead (i : Fin TC_MAX) (ch : uint8)
  | doReadDone (i : Fin TC_MAX) (ch : uint8)
  | doWrite (i : Fin TC_MAX) (ch : uint8) (buf : Buf) (len : uint8)
  | doEndTx (crc : uint16) (resp : uint16)

/-- Modelled from the spec: the whole system state: the two registry
tables, the per-class device states, and the exchange state. -/
structure SysState (condSearch : Bool) where
  calls : Fin TC_MAX → moat_call_t condSearch
  sizes : Fin TC_MAX → uint8
  dev : Fin TC_MAX → DevState
  xs : XState

/-- Modelled from the spec: one dispatcher step. A write is committed only
when the write_check verdict accepts it; a read fills the caller buffer
and leaves device state alone. -/
def sysStep (o : Op) (s : SysState condSearch) : SysState condSearch :=
  match o with
  | Op.doInit i =>
      { s with dev := Function.update s.dev i ((classOf i).init (s.dev i)) }
  | Op.doPoll i =>
      { s with dev := Function.update s.dev i ((classOf i).poll (s.dev i)) }
  | Op.doRead _ _ => s
  | Op.doReadDone i ch =>
      { s with dev := Function.update s.dev i ((classOf i).read_done ch (s.dev i)) }
  | Op.doWrite i ch buf len =>
      if (classOf i).write_check ch buf len
      then { s with dev := Function.update s.dev i ((classOf i).write ch buf len (s.dev i)) }
      else s
  | Op.doEndTx crc resp =>
      { s with xs := endtx_step resp (XState.finalizing crc) }

/-- Run a list of dispatcher operations from a starting state. -/
def runOps (ops : List Op) (s : SysState condSearch) : SysState condSearch :=
  ops.foldl (fun t o => sysStep o t) s

/-- A fresh device state. -/
def devState0 : DevState :=
  { newData := false, value := [], stored := [] }

/-- The boot system state: both tables as composed at build time, fresh
device states, idle exchange. -/
def sys0 (condSearch : Bool) : SysState condSearch :=
  { calls := moat_calls condSearch
    sizes := moat_sizes
    dev := fun _ => devState0
    xs := XState.idle }

/-- Padding or truncating a buffer to n bytes yields exactly n bytes. -/
theorem padTo_length (n : Nat) (b : Buf) : (padTo n b).length = n := by
  simp [padTo]

/-- Claim C1: end_transmission returns normally exactly when the response
is the bitwise complement of the 16-bit crc it sent; every other response
aborts the exchange, and the aborted state is terminal, never resuming
the normal control path. -/
theorem c1_end_transmission_commit_iff (crc resp : uint16) :
    (end_transmission crc resp = some () ↔ resp = complement16 crc)
    ∧ (resp ≠ complement16 crc →
        end_transmission crc resp = none
        ∧ endtx_step resp (XState.finalizing crc) = XState.aborted)
    ∧ (∀ r : uint16, endtx_step r XState.aborted = XState.aborted) := by
  refine ⟨?_, fun h => ?_, fun r => rfl⟩
  · unfold end_transmission
    split <;> simp_all
  · simp [end_transmission, endtx_step, h]

/-- Claim C1 witness: a concrete mismatching response is absorbed by the
abort path, never the normal one. -/
theorem c1_witness :
    end_transmission 4660 0 = none
    ∧ endtx_step 0 (XState.finalizing 4660) = XState.aborted :=
  (c1_end_transmission_commit_iff 4660 0).2.1 (by decide)

/-- Claim C2 counterexample: on the first registered class, a rejected
call (length 33) and an accepted call (length 4) have distinct verdicts
yet identical caller-visible results under the declared void-returning
signature of write_check_fn, so no accept or reject outcome reaches the
caller through it. -/
theorem c2_counterexample :
    (classOf 0).write_check 0 fixtureA 33 = false
    ∧ (classOf 0).write_check 0 fixtureA 4 = true
    ∧ write_check_c 0 0 fixtureA 33 = write_check_c 0 0 fixtureA 4 :=
  ⟨by decide, by decide, rfl⟩

/-- Claim C2 as amended: the write_check verdict rejects whenever the
proposed length exceeds the class maximum, a rejected write leaves the
whole system state unchanged with write never invoked on it, and the
declared interface returns void, so the verdict is not delivered to the
caller as a return value. -/
theorem c2_write_check_rejects_long (f : Bool) (i : Fin TC_MAX) (ch : uint8)
    (buf : Buf) (len : uint8) (s : SysState f)
    (h : (moat_sizes i).val < len.val) :
    (classOf i).write_check ch buf len = false
    ∧ sysStep (Op.doWrite i ch buf len) s = s
    ∧ write_check_c i ch buf len = () := by
  have hv : (classOf i).write_check ch buf len = false := by
    by_cases h0 : i.val = 0 <;>
      simp [classOf, moat_sizes, h0, sensorClass, switchClass] at h ⊢ <;>
      omega
  refine ⟨hv, ?_, rfl⟩
  simp [sysStep, hv]

/-- Claim C2 witness: a concrete over-long write against slot 0 is
rejected and changes nothing. -/
theorem c2_witness :
    (classOf 0).write_check 0 [] 33 = false
    ∧ sysStep (Op.doWrite 0 0 [] 33) (sys0 false) = sys0 false
    ∧ write_check_c 0 0 [] 33 = () :=
  c2_write_check_rejects_long false 0 0 [] 33 (sys0 false) (by decide)

/-- Claim C3: registry lookup is total on Fin TC_MAX and yields an entry
whose seven mandatory operation pointers are all non-null, with both
alert pointers populated whenever the build flag is set (and inaccessible
otherwise by the shape of the entry type). -/
theorem c3_lookup_total_populated (f : Bool) (i : Fin TC_MAX) :
    (moat_lookup f i).1.init.isSome = true
    ∧ (moat_lookup f i).1.poll.isSome = true
    ∧ (moat_lookup f i).1.read_len.isSome = true
    ∧ (moat_lookup f i).1.read.isSome = true
    ∧ (moat_lookup f i).1.read_done.isSome = true
    ∧ (moat_lookup f i).1.write_check.isSome = true
    ∧ (moat_lookup f i).1.write.isSome = true
    ∧ ∀ h : f = true,
        ((moat_lookup f i).1.alert_check h).isSome = true
        ∧ ((moat_lookup f i).1.alert_fill h).isSome = true :=
  ⟨rfl, rfl, rfl, rfl, rfl, rfl, rfl, fun _ => ⟨rfl, rfl⟩⟩

/-- Claim C3 witness: at slot 0 with the flag set, the alert pointers of
the looked-up entry are populated. -/
theorem c3_witness :
    ((moat_lookup true 0).1.alert_check rfl).isSome = true
    ∧ ((moat_lookup true 0).1.alert_fill rfl).isSome = true :=
  (c3_lookup_total_populated true 0).2.2.2.2.2.2.2 rfl

/-- Claim C4: for every registered class, channel and device state, the
read length is at most the size-table entry of the class, which is at
most the shared buffer capacity MAXBUF, 32. -/
theorem c4_read_len_le_max_le_buf (i : Fin TC_MAX) (ch : uint8) (s : DevState) :
    ((classOf i).read_len ch s).val ≤ (moat_sizes i).val
    ∧ (moat_sizes i).val ≤ MAXBUF := by
  by_cases h0 : i.val = 0 <;>
    simp [classOf, moat_sizes, h0, sensorClass, switchClass, MAXBUF]
  all_goals decide

/-- Claim C4 witness at slot 1, channel 0, the fresh device state. -/
theorem c4_witness :
    ((classOf 1).read_len 0 devState0).val ≤ (moat_sizes 1).val
    ∧ (moat_sizes 1).val ≤ MAXBUF :=
  c4_read_len_le_max_le_buf 1 0 devState0

/-- Claim C5: for every compiled-in class name, the alert symbols appear
in the TC_DEFINE expansion exactly when the build flag is set; with the
flag set every registry entry has both alert pointers populated, and with
the flag clear the alert component of every entry is vacuous, the entry
shape being uniform across the table. -/
theorem c5_alert_ops_iff_flag (f : Bool) (s : String) (hs : s ∈ classNames) :
    (("alert_" ++ s ++ "_check") ∈ TC_DEFINE f s ↔ f = true)
    ∧ (("alert_" ++ s ++ "_fill") ∈ TC_DEFINE f s ↔ f = true)
    ∧ (∀ i : Fin TC_MAX, ∀ h : f = true,
        ((moat_calls f i).alert_check h).isSome = true
        ∧ ((moat_calls f i).alert_fill h).isSome = true)
    ∧ (f = false → ∀ i j : Fin TC_MAX,
        (moat_calls f i).alert_check = (moat_calls f j).alert_check
        ∧ (moat_calls f i).alert_fill = (moat_calls f j).alert_fill) := by
  refine ⟨?_, ?_, fun i h => ⟨rfl, rfl⟩, fun hf i j => ?_⟩
  · simp only [classNames] at hs
    fin_cases hs <;> cases f <;> decide
  · simp only [classNames] at hs
    fin_cases hs <;> cases f <;> decide
  · subst hf
    exact ⟨funext fun h => absurd h (by decide),
           funext fun h => absurd h (by decide)⟩

/-- Claim C5 witness: the check symbol of the sensor class is declared
exactly because the flag is set. -/
theorem c5_witness :
    ("alert_" ++ "sensor" ++ "_check") ∈ TC_DEFINE true "sensor" ↔ true = true :=
  (c5_alert_ops_iff_flag true "sensor" (by decide)).1

/-- Claim C6: under the caller precondition that the buffer capacity
covers the announced read length, read fills exactly that many bytes;
read is a total function of the device state, with no failure path and
nothing to block on. -/
theorem c6_read_fills_read_len (i : Fin TC_MAX) (ch : uint8) (s : DevState)
    (_hcap : ((classOf i).read_len ch s).val ≤ MAXBUF) :
    ((classOf i).read ch s).length = ((classOf i).read_len ch s).val := by
  by_cases h0 : i.val = 0 <;>
    simp [classOf, h0, sensorClass, switchClass, padTo_length]
  all_goals decide

/-- Claim C6 witness: at slot 0 the fresh device state yields exactly the
announced number of bytes. -/
theorem c6_witness :
    ((classOf 0).read 0 devState0).length = ((classOf 0).read_len 0 devState0).val :=
  c6_read_fills_read_len 0 0 devState0 (by decide)

/-- Claim C7: the registry table and the size table are never mutated:
any sequence of dispatched operations leaves both tables of the system
state unchanged. -/
theorem c7_tables_immutable (f : Bool) (ops : List Op) (s : SysState f) :
    (runOps ops s).calls = s.calls ∧ (runOps ops s).sizes = s.sizes := by
  induction ops generalizing s with
  | nil => exact ⟨rfl, rfl⟩
  | cons o rest ih =>
    have hstep : (sysStep o s).calls = s.calls ∧ (sysStep o s).sizes = s.sizes := by
      cases o <;> first
        | exact ⟨rfl, rfl⟩
        | (simp only [sysStep]; split <;> exact ⟨rfl, rfl⟩)
    have hrest := ih (sysStep o s)
    exact ⟨hrest.1.trans hstep.1, hrest.2.trans hstep.2⟩

/-- Claim C7 witness: a concrete operation sequence from the boot state
leaves both tables as composed at build time. -/
theorem c7_witness :
    (runOps [Op.doInit 0, Op.doPoll 1, Op.doWrite 0 0 [] 33] (sys0 false)).calls
      = (sys0 false).calls
    ∧ (runOps [Op.doInit 0, Op.doPoll 1, Op.doWrite 0 0 [] 33] (sys0 false)).sizes
      = (sys0 false).sizes :=
  c7_tables_immutable false [Op.doInit 0, Op.doPoll 1, Op.doWrite 0 0 [] 33]
    (sys0 false)

/-- Claim C8: acknowledging an unconsumed read is harmless: read_done is
total, applying it again changes nothing further, and the class stays
ready for a subsequent read cycle, the next read again filling exactly
the announced number of bytes. -/
theorem c8_read_done_repeatable (i : Fin TC_MAX) (ch : uint8) (s : DevState) :
    (classOf i).read_done ch ((classOf i).read_done ch s) = (classOf i).read_done ch s
    ∧ ((classOf i).read ch ((classOf i).read_done ch s)).length
        = ((classOf i).read_len ch ((classOf i).read_done ch s)).val := by
  by_cases h0 : i.val = 0 <;>
    simp [classOf, h0, sensorClass, switchClass, padTo_length]
  all_goals decide

/-- Claim C8 witness at slot 0, channel 0, the fresh device state. -/
theorem c8_witness :
    (classOf 0).read_done 0 ((classOf 0).read_done 0 devState0)
      = (classOf 0).read_done 0 devState0
    ∧ ((classOf 0).read 0 ((classOf 0).read_done 0 devState0)).length
      = ((classOf 0).read_len 0 ((classOf 0).read_done 0 devState0)).val :=
  c8_read_done_repeatable 0 0 devState0

/-- Claim C9: the CRC token consumed by the completion protocol is a
16-bit value, held by exactly one state of the exchange trace and absent
from the final state whatever the response, so it is consumed exactly
once and never persisted. -/
theorem c9_crc_token_once (crc resp : uint16) :
    crc.val < 2 ^ 16
    ∧ (exchange_trace crc resp).filter (fun st => (holds_crc st).isSome)
        = [XState.finalizing crc]
    ∧ holds_crc (endtx_step resp (XState.finalizing crc)) = none := by
  refine ⟨lt_of_lt_of_le crc.isLt (by norm_num), ?_, ?_⟩
  · simp only [exchange_trace, endtx_step]
    by_cases hr : resp = complement16 crc
    · rw [if_pos hr]
      simp [holds_crc, List.filter]
    · rw [if_neg hr]
      simp [holds_crc, List.filter]
  · simp only [endtx_step]
    by_cases hr : resp = complement16 crc
    · rw [if_pos hr]; rfl
    · rw [if_neg hr]; rfl

/-- Claim C9 witness at a concrete crc and response. -/
theorem c9_witness :
    (4660 : uint16).val < 2 ^ 16
    ∧ (exchange_trace 4660 0).filter (fun st => (holds_crc st).isSome)
        = [XState.finalizing 4660]
    ∧ holds_crc (endtx_step 0 (XState.finalizing 4660)) = none :=
  c9_crc_token_once 4660 0

/-- Claim C10: every channel, length, read-length and size value at the
operation interface inhabits the 8-bit unsigned type of the header, so
none exceeds 255 and the addressable channel space has exactly 256
values. -/
theorem c10_interface_eight_bit :
    (∀ ch : uint8, ch.val ≤ 255)
    ∧ (∀ g : read_len_fn, ∀ ch : uint8, (g ch).val ≤ 255)
    ∧ (∀ i : Fin TC_MAX, (moat_sizes i).val ≤ 255)
    ∧ Fintype.card uint8 = 256 := by
  refine ⟨fun ch => ?_, fun g ch => ?_, fun i => ?_, ?_⟩
  · have := ch.isLt; omega
  · have := (g ch).isLt; omega
  · have := (moat_sizes i).isLt; omega
  · exact Fintype.card_fin 256

end Moat
